import Mathlib

/-!
Shallow embedding of `src/main.py` of the baby-monitor repository
(class `BabyMonitorApp`), together with proofs about its stability
window, debounce state machine, frame channel, push dispatcher and
startup logic.

Conventions of the embedding:
* Python strings are Lean `String`s; the sentinel label is the literal
  `"None"` as in the source.
* Python floats (landmark coordinates, the area threshold, the vote
  ratio `0.75`) are modelled as rationals `ℚ`.
* A Python call that may raise is modelled as `Except`; an exception
  that the source does not catch propagates as `Except.error`.
-/

namespace BabyMonitor

/-! ## Configuration (main.py lines 23-36) -/

def WINDOW_SIZE : Nat := 8

def AREA_THRESHOLD : ℚ := 15 / 100

/-- `GESTURE_MAP` from main.py lines 31-36: classifier category → human label. -/
def GESTURE_MAP : List (String × String) :=
  [("Closed_Fist", "😴Sleeping"),
   ("Open_Palm", "👀Awake"),
   ("Thumb_Up", "🍼Feeding"),
   ("Victory", "💩Diaper")]

/-- `stable_now in GESTURE_MAP` (dict membership is key membership). -/
def inGestureMap (s : String) : Bool :=
  (GESTURE_MAP.map Prod.fst).contains s

/-- `GESTURE_MAP[s]` (only evaluated under the membership guard). -/
def gestureLabel (s : String) : String :=
  ((GESTURE_MAP.find? (fun p => p.1 == s)).map Prod.snd).getD ""

/-! ## Classifier result (mediapipe `recognize` output, main.py lines 164-176) -/

/-- One ranked gesture of one hand; only `category_name` is read by the code. -/
structure Gesture where
  category_name : String
deriving DecidableEq, Repr

/-- One hand landmark; only the normalized `x`, `y` coordinates are read. -/
structure Landmark where
  x : ℚ
  y : ℚ
deriving DecidableEq, Repr

/-- The fields of the recognizer result that `_inference_worker` reads:
`result.gestures` (per hand, ranked) and `result.hand_landmarks` (per hand). -/
structure RecognizerResult where
  gestures : List (List Gesture)
  hand_landmarks : List (List Landmark)
deriving DecidableEq, Repr

/-- `max` of a list of rationals, as Python `max(seq)` on a nonempty list. -/
def listMax : List ℚ → ℚ
  | [] => 0
  | x :: xs => xs.foldl max x

/-- `min` of a list of rationals, as Python `min(seq)` on a nonempty list. -/
def listMin : List ℚ → ℚ
  | [] => 0
  | x :: xs => xs.foldl min x

/-- main.py lines 168-171: bounding-box area of the first hand's landmarks,
`(max(x_coords) - min(x_coords)) * (max(y_coords) - min(y_coords))`. -/
def detectionArea (landmarks : List Landmark) : ℚ :=
  let x_coords := landmarks.map Landmark.x
  let y_coords := landmarks.map Landmark.y
  (listMax x_coords - listMin x_coords) * (listMax y_coords - listMin y_coords)

/-- `result.gestures[0][0].category_name` (main.py line 176). -/
def topCategory (result : RecognizerResult) : String :=
  ((result.gestures.headD []).headD ⟨""⟩).category_name

/-- main.py lines 166-176: the cycle's raw label.  `raw_res` starts as
`"None"`; if `result.gestures and result.hand_landmarks` are both nonempty
and the bounding-box area is strictly above `AREA_THRESHOLD`, it becomes the
top reported category. -/
def raw_res_of (result : RecognizerResult) : String :=
  if result.gestures ≠ [] ∧ result.hand_landmarks ≠ [] then
    let landmarks := result.hand_landmarks.headD []
    let area := detectionArea landmarks
    if area > AREA_THRESHOLD then topCategory result else "None"
  else "None"

/-! ## Stability window (main.py lines 61, 179-182) -/

/-- `deque(maxlen=WINDOW_SIZE).append`: append, dropping the oldest entries
beyond the capacity. -/
def pushWindow (w : List String) (x : String) : List String :=
  let w2 := w ++ [x]
  if w2.length > WINDOW_SIZE then w2.drop (w2.length - WINDOW_SIZE) else w2

/-- The distinct labels of the window in first-occurrence order — the key
order of Python's `Counter(self.window)` (dict insertion order). -/
def dedupFirst : List String → List String
  | [] => []
  | x :: xs => x :: (dedupFirst xs).filter (fun y => y ≠ x)

/-- `Counter(self.window).most_common(1)[0]` (main.py line 181): the label of
maximal multiplicity, ties broken towards the earliest first occurrence
(Python's `sorted` is stable on dict insertion order), with its count. -/
def most_common1 (w : List String) : String × Nat :=
  (dedupFirst w).foldl
    (fun best x => if w.count x > best.2 then (x, w.count x) else best)
    ("None", 0)

/-- main.py line 182:
`stable_now = most_common if count >= WINDOW_SIZE * 0.75 else "None"`. -/
def stable_now_of (w : List String) : String :=
  let mc := most_common1 w
  if ((mc.2 : ℚ) ≥ (WINDOW_SIZE : ℚ) * (75 / 100)) then mc.1 else "None"

/-! ## Debounce state machine (main.py lines 60, 179-193) -/

/-- The per-transition notification: the stable category and the human label
pushed/logged with it (`GESTURE_MAP[stable_now]`, the timestamp abstracted). -/
structure NotificationEvent where
  category : String
  label : String
deriving DecidableEq, Repr

/-- The mutable state of `BabyMonitorApp` read by the debounce logic:
`self.active_state` and `self.window`. -/
structure AppState where
  active_state : String
  window : List String
deriving DecidableEq, Repr

/-- `self.active_state = "None"`, `self.window = deque(maxlen=WINDOW_SIZE)`
(main.py lines 60-61). -/
def initState : AppState :=
  { active_state := "None", window := [] }

/-- main.py lines 179-193: append the raw label; once the window is full,
compute `stable_now` and decide: a recognized category different from
`active_state` updates the state and emits one event; `"None"` resets the
state silently; anything else does nothing. -/
def debounceStep (s : AppState) (raw_res : String) :
    AppState × Option NotificationEvent :=
  let w := pushWindow s.window raw_res
  if w.length = WINDOW_SIZE then
    let stable_now := stable_now_of w
    if inGestureMap stable_now ∧ stable_now ≠ s.active_state then
      ({ active_state := stable_now, window := w },
       some { category := stable_now, label := gestureLabel stable_now })
    else if stable_now = "None" then
      ({ active_state := "None", window := w }, none)
    else
      ({ s with window := w }, none)
  else
    ({ s with window := w }, none)

/-- Run the debounce logic over a sequence of raw labels, collecting the
emitted events in order. -/
def runRaw (s : AppState) : List String → AppState × List NotificationEvent
  | [] => (s, [])
  | r :: rs =>
    let step := debounceStep s r
    let rest := runRaw step.1 rs
    (rest.1, step.2.toList ++ rest.2)

/-- One whole inference cycle after a frame was taken, with the classifier
invocation's outcome made explicit.  The `try` at main.py lines 156-159
covers only the queue `get`; `self.recognizer.recognize` at line 164 is not
guarded, so an exception there propagates out of the worker loop. -/
def inferStep (s : AppState) (recognize : Except Unit RecognizerResult) :
    Except Unit (AppState × Option NotificationEvent) :=
  match recognize with
  | Except.error e => Except.error e
  | Except.ok result => Except.ok (debounceStep s (raw_res_of result))

/-! ## Computable companions

`Rat` arithmetic does not reduce inside the kernel (its normalization uses
well-founded recursion), so for concrete evaluations we use companion
functions whose threshold test is the equivalent `Nat` comparison, and prove
them equal to the faithful definitions above. -/

/-- `stable_now_of` with the vote threshold `count ≥ 8 · 0.75` replaced by the
equivalent `6 ≤ count`. -/
def stable_nowD (w : List String) : String :=
  let mc := most_common1 w
  if 6 ≤ mc.2 then mc.1 else "None"

theorem stable_now_of_eq (w : List String) : stable_now_of w = stable_nowD w := by
  unfold stable_now_of stable_nowD
  have h6 : ((WINDOW_SIZE : ℚ) * (75 / 100)) = 6 := by
    norm_num [WINDOW_SIZE]
  rw [h6]
  have hcast : ((6 : ℚ) ≤ ((most_common1 w).2 : ℚ)) ↔ 6 ≤ (most_common1 w).2 := by
    exact_mod_cast Iff.rfl
  by_cases h : 6 ≤ (most_common1 w).2
  · rw [if_pos (ge_iff_le.mpr (hcast.mpr h)), if_pos h]
  · rw [if_neg (fun hc => h (hcast.mp (ge_iff_le.mp hc))), if_neg h]

/-- `debounceStep` with `stable_nowD` in place of `stable_now_of`. -/
def debounceStepD (s : AppState) (raw_res : String) :
    AppState × Option NotificationEvent :=
  let w := pushWindow s.window raw_res
  if w.length = WINDOW_SIZE then
    let stable_now := stable_nowD w
    if inGestureMap stable_now ∧ stable_now ≠ s.active_state then
      ({ active_state := stable_now, window := w },
       some { category := stable_now, label := gestureLabel stable_now })
    else if stable_now = "None" then
      ({ active_state := "None", window := w }, none)
    else
      ({ s with window := w }, none)
  else
    ({ s with window := w }, none)

theorem debounceStep_eq (s : AppState) (raw_res : String) :
    debounceStep s raw_res = debounceStepD s raw_res := by
  unfold debounceStep debounceStepD
  simp only [stable_now_of_eq]

/-- `runRaw` built on `debounceStepD`. -/
def runRawD (s : AppState) : List String → AppState × List NotificationEvent
  | [] => (s, [])
  | r :: rs =>
    let step := debounceStepD s r
    let rest := runRawD step.1 rs
    (rest.1, step.2.toList ++ rest.2)

theorem runRaw_eq (rs : List String) : ∀ s : AppState, runRaw s rs = runRawD s rs := by
  induction rs with
  | nil => intro s; rfl
  | cons r rs ih =>
    intro s
    unfold runRaw runRawD
    simp only [debounceStep_eq, ih]

/-! ## Startup (`BabyMonitorApp.__init__`, main.py lines 57-84) -/

/-- The parts of the environment `__init__` can observe. -/
structure StartupEnv where
  audio_file_exists : Bool
  model_file_exists : Bool
  camera_opened : Bool
deriving DecidableEq, Repr

inductive StartupResult
  | started (audio_warning : Bool)
  | exited (code : Nat)
deriving DecidableEq, Repr

/-- main.py lines 57-84.  `cv2.VideoCapture(CAMERA_INDEX)` does not raise on
an unavailable device and `__init__` never checks `cap.isOpened()`, so
`camera_opened` is not read.  A missing audio file only logs a warning
(line 72); a missing model file logs critical and calls `sys.exit(1)`
(lines 77-78). -/
def initBabyMonitorApp (env : StartupEnv) : StartupResult :=
  let audio_warning := !env.audio_file_exists
  if !env.model_file_exists then StartupResult.exited 1
  else StartupResult.started audio_warning

/-! ## Frame channel (`Queue(maxsize=1)`, main.py lines 59, 144-150, 155-159) -/

/-- `Queue(maxsize=1).put`: succeeds on an empty slot; on a full slot the
caller would block, modelled as `Except.error`. -/
def queue_put {α : Type} (slot : Option α) (frame : α) : Except Unit (Option α) :=
  match slot with
  | none => Except.ok (some frame)
  | some _ => Except.error ()

/-- `Queue(maxsize=1).get(timeout=...)`: the pending frame if there is one;
`Empty` (modelled as `Except.error`) after the timeout otherwise. -/
def queue_get {α : Type} (slot : Option α) : Except Unit (α × Option α) :=
  match slot with
  | some frame => Except.ok (frame, none)
  | none => Except.error ()

/-- main.py lines 146-149, the producer side of the channel: if a frame is
already waiting, `get_nowait()` discards it (a concurrent `Empty` is caught
and ignored), then `put` stores the new frame. -/
def camera_put {α : Type} (slot : Option α) (frame : α) : Except Unit (Option α) :=
  let drained : Option α := if slot.isSome then none else slot
  queue_put drained frame

/-! ## Push dispatcher (`_push_to_bark`, main.py lines 106-136) -/

inductive PushOutcome
  | sent
  | failed_status (code : Nat)
  | transport_error
deriving DecidableEq, Repr

/-- main.py lines 119-134, the loop body for one recipient key: one GET
request; status 200 is success, any other status is logged as a failure, and
a transport exception is caught by the per-key `except` and logged. -/
def push_attempt (response : String → Except Unit Nat) (key : String) : PushOutcome :=
  match response key with
  | Except.ok 200 => PushOutcome.sent
  | Except.ok code => PushOutcome.failed_status code
  | Except.error _ => PushOutcome.transport_error

/-- main.py lines 108-136 (`_send`): one attempt per configured key, in
order; every failure is contained inside the loop, so the function always
returns its log of outcomes and never raises. -/
def push_to_bark (keys : List String) (response : String → Except Unit Nat) :
    List (String × PushOutcome) :=
  keys.map (fun key => (key, push_attempt response key))

/-! ## Lemmas about `most_common1` -/

theorem mem_dedupFirst {a : String} : ∀ {l : List String}, a ∈ dedupFirst l ↔ a ∈ l := by
  intro l
  induction l with
  | nil => simp [dedupFirst]
  | cons x xs ih =>
    simp only [dedupFirst, List.mem_cons, List.mem_filter]
    constructor
    · rintro (rfl | ⟨h1, -⟩)
      · exact Or.inl rfl
      · exact Or.inr (ih.mp h1)
    · rintro (rfl | h)
      · exact Or.inl rfl
      · by_cases hax : a = x
        · exact Or.inl hax
        · exact Or.inr ⟨ih.mpr h, by simpa using hax⟩

/-- The fold step of `most_common1`. -/
def bestStep (w : List String) (best : String × Nat) (x : String) : String × Nat :=
  if w.count x > best.2 then (x, w.count x) else best

theorem most_common1_eq_foldl (w : List String) :
    most_common1 w = (dedupFirst w).foldl (bestStep w) ("None", 0) := rfl

theorem bestStep_le (w : List String) (best : String × Nat) (y : String) :
    best.2 ≤ (bestStep w best y).2 := by
  unfold bestStep
  split
  · next h => exact Nat.le_of_lt h
  · exact Nat.le_refl _

theorem bestStep_count_le (w : List String) (best : String × Nat) (y : String) :
    w.count y ≤ (bestStep w best y).2 := by
  unfold bestStep
  split
  · exact Nat.le_refl _
  · next h => exact Nat.le_of_not_lt h

theorem bestStep_eq_or (w : List String) (best : String × Nat) (y : String) :
    (bestStep w best y).2 = w.count (bestStep w best y).1 ∨ bestStep w best y = best := by
  unfold bestStep
  split
  · exact Or.inl rfl
  · exact Or.inr rfl

theorem foldl_bestStep (w : List String) :
    ∀ (ds : List String) (best : String × Nat),
      best.2 ≤ (ds.foldl (bestStep w) best).2 ∧
      ((ds.foldl (bestStep w) best).2 = w.count (ds.foldl (bestStep w) best).1 ∨
        ds.foldl (bestStep w) best = best) ∧
      ∀ x ∈ ds, w.count x ≤ (ds.foldl (bestStep w) best).2 := by
  intro ds
  induction ds with
  | nil =>
    intro best
    exact ⟨Nat.le_refl _, Or.inr rfl, by simp⟩
  | cons y ds ih =>
    intro best
    simp only [List.foldl_cons]
    obtain ⟨ih1, ih2, ih3⟩ := ih (bestStep w best y)
    refine ⟨Nat.le_trans (bestStep_le w best y) ih1, ?_, ?_⟩
    · rcases ih2 with h | h
      · exact Or.inl h
      · rw [h]
        rcases bestStep_eq_or w best y with h2 | h2
        · exact Or.inl h2
        · exact Or.inr h2
    · intro x hx
      rcases List.mem_cons.mp hx with rfl | hx2
      · exact Nat.le_trans (bestStep_count_le w best x) ih1
      · exact ih3 x hx2

/-- `most_common1` really returns the multiplicity of the label it returns. -/
theorem most_common1_count (w : List String) :
    w.count (most_common1 w).1 = (most_common1 w).2 := by
  rw [most_common1_eq_foldl]
  obtain ⟨-, h2, h3⟩ := foldl_bestStep w (dedupFirst w) ("None", 0)
  rcases h2 with h | h
  · exact h.symm
  · rw [h]
    rw [List.count_eq_zero]
    intro hmem
    have h4 := h3 "None" (mem_dedupFirst.mpr hmem)
    rw [h] at h4
    exact absurd hmem (List.count_eq_zero.mp (Nat.le_zero.mp h4))

/-- No label occurs more often than the one `most_common1` returns. -/
theorem most_common1_max (w : List String) (x : String) :
    w.count x ≤ (most_common1 w).2 := by
  by_cases hx : x ∈ w
  · rw [most_common1_eq_foldl]
    exact (foldl_bestStep w (dedupFirst w) ("None", 0)).2.2 x (mem_dedupFirst.mpr hx)
  · rw [List.count_eq_zero.mpr hx]
    exact Nat.zero_le _

/-! ## Branch lemmas for `debounceStep` -/

theorem debounceStep_not_full (s : AppState) (raw_res : String)
    (h : (pushWindow s.window raw_res).length ≠ WINDOW_SIZE) :
    debounceStep s raw_res = ({ s with window := pushWindow s.window raw_res }, none) := by
  simp only [debounceStep]
  rw [if_neg h]

theorem debounceStep_full_emit (s : AppState) (raw_res : String)
    (hfull : (pushWindow s.window raw_res).length = WINDOW_SIZE)
    (hmap : inGestureMap (stable_now_of (pushWindow s.window raw_res)) = true)
    (hne : stable_now_of (pushWindow s.window raw_res) ≠ s.active_state) :
    debounceStep s raw_res =
      ({ active_state := stable_now_of (pushWindow s.window raw_res),
         window := pushWindow s.window raw_res },
       some { category := stable_now_of (pushWindow s.window raw_res),
              label := gestureLabel (stable_now_of (pushWindow s.window raw_res)) }) := by
  simp only [debounceStep]
  rw [if_pos hfull, if_pos ⟨hmap, hne⟩]

theorem debounceStep_full_same (s : AppState) (raw_res : String)
    (hfull : (pushWindow s.window raw_res).length = WINDOW_SIZE)
    (heq : stable_now_of (pushWindow s.window raw_res) = s.active_state) :
    (debounceStep s raw_res).1.active_state = s.active_state ∧
    (debounceStep s raw_res).2 = none := by
  simp only [debounceStep]
  rw [if_pos hfull, if_neg (fun hc => hc.2 heq)]
  by_cases h2 : stable_now_of (pushWindow s.window raw_res) = "None"
  · rw [if_pos h2]
    refine ⟨?_, rfl⟩
    show "None" = s.active_state
    rw [← heq, h2]
  · rw [if_neg h2]
    exact ⟨rfl, rfl⟩

theorem debounceStep_full_none (s : AppState) (raw_res : String)
    (hfull : (pushWindow s.window raw_res).length = WINDOW_SIZE)
    (hnone : stable_now_of (pushWindow s.window raw_res) = "None") :
    debounceStep s raw_res =
      ({ active_state := "None", window := pushWindow s.window raw_res }, none) := by
  simp only [debounceStep]
  have hc : ¬ (inGestureMap (stable_now_of (pushWindow s.window raw_res)) = true ∧
      stable_now_of (pushWindow s.window raw_res) ≠ s.active_state) := by
    rintro ⟨h1, -⟩
    rw [hnone] at h1
    exact absurd h1 (by decide)
  rw [if_pos hfull, if_neg hc, if_pos hnone]

theorem debounceStep_full_other (s : AppState) (raw_res : String)
    (hfull : (pushWindow s.window raw_res).length = WINDOW_SIZE)
    (hmap : inGestureMap (stable_now_of (pushWindow s.window raw_res)) = false)
    (hnone : stable_now_of (pushWindow s.window raw_res) ≠ "None") :
    debounceStep s raw_res = ({ s with window := pushWindow s.window raw_res }, none) := by
  simp only [debounceStep]
  have hc : ¬ (inGestureMap (stable_now_of (pushWindow s.window raw_res)) = true ∧
      stable_now_of (pushWindow s.window raw_res) ≠ s.active_state) := by
    rintro ⟨h1, -⟩
    rw [hmap] at h1
    exact absurd h1 (by decide)
  rw [if_pos hfull, if_neg hc, if_neg hnone]

/-! ## The possible values of `active_state` -/

/-- `"None"` together with the keys of `GESTURE_MAP`. -/
def recognized_states : List String := "None" :: GESTURE_MAP.map Prod.fst

theorem contains_recognized_of_map {x : String} (h : inGestureMap x = true) :
    recognized_states.contains x = true := by
  unfold recognized_states
  unfold inGestureMap at h
  simp only [List.contains_cons, h, Bool.or_true]

theorem contains_recognized_none : recognized_states.contains "None" = true := by decide

theorem debounceStep_active_mem (s : AppState) (raw_res : String)
    (h : recognized_states.contains s.active_state = true) :
    recognized_states.contains (debounceStep s raw_res).1.active_state = true := by
  by_cases hfull : (pushWindow s.window raw_res).length = WINDOW_SIZE
  · cases hb : inGestureMap (stable_now_of (pushWindow s.window raw_res)) with
    | true =>
      by_cases hne : stable_now_of (pushWindow s.window raw_res) = s.active_state
      · obtain ⟨h1, -⟩ := debounceStep_full_same s raw_res hfull hne
        rw [h1]
        exact h
      · rw [debounceStep_full_emit s raw_res hfull hb hne]
        exact contains_recognized_of_map hb
    | false =>
      by_cases hnone : stable_now_of (pushWindow s.window raw_res) = "None"
      · rw [debounceStep_full_none s raw_res hfull hnone]
        exact contains_recognized_none
      · rw [debounceStep_full_other s raw_res hfull hb hnone]
        exact h
  · rw [debounceStep_not_full s raw_res hfull]
    exact h

theorem runRaw_active_mem (raws : List String) :
    ∀ s : AppState, recognized_states.contains s.active_state = true →
      recognized_states.contains (runRaw s raws).1.active_state = true := by
  induction raws with
  | nil => intro s h; exact h
  | cons r rs ih =>
    intro s h
    show recognized_states.contains (runRaw (debounceStep s r).1 rs).1.active_state = true
    exact ih (debounceStep s r).1 (debounceStep_active_mem s r h)

/-! ## Claims -/

/-- C1: on a full window of size `WINDOW_SIZE = 8`, the stable value is the
most frequent label (its count bounds every label's count) when that count
reaches `ceil(0.75 · W) = 6`, and `"None"` otherwise; in particular six
`"Open_Palm"` out of eight give `"Open_Palm"` and five out of eight give
`"None"`. -/
theorem C1_stable_vote_threshold :
    (∀ w : List String, w.length = WINDOW_SIZE →
      (∀ x : String, w.count x ≤ w.count (most_common1 w).1) ∧
      stable_now_of w =
        (if Nat.ceil ((75 / 100 : ℚ) * (WINDOW_SIZE : ℚ)) ≤ w.count (most_common1 w).1
         then (most_common1 w).1 else "None")) ∧
    stable_now_of (List.replicate 6 "Open_Palm" ++ List.replicate 2 "None") = "Open_Palm" ∧
    stable_now_of (List.replicate 5 "Open_Palm" ++ List.replicate 3 "None") = "None" := by
  refine ⟨fun w _ => ⟨?_, ?_⟩, ?_, ?_⟩
  · intro x
    rw [most_common1_count]
    exact most_common1_max w x
  · have hceil : Nat.ceil ((75 / 100 : ℚ) * (WINDOW_SIZE : ℚ)) = 6 := by
      norm_num [WINDOW_SIZE]
    rw [stable_now_of_eq, hceil, most_common1_count]
    rfl
  · rw [stable_now_of_eq]; decide
  · rw [stable_now_of_eq]; decide

/-- C1 witness: the theorem applied to the concrete window with six
`"Open_Palm"` and two `"None"` entries. -/
theorem C1_stable_vote_threshold_witness :
    (List.replicate 6 "Open_Palm" ++ List.replicate 2 "None").length = WINDOW_SIZE ∧
    stable_now_of (List.replicate 6 "Open_Palm" ++ List.replicate 2 "None") =
      (if Nat.ceil ((75 / 100 : ℚ) * (WINDOW_SIZE : ℚ)) ≤
          (List.replicate 6 "Open_Palm" ++ List.replicate 2 "None").count
            (most_common1 (List.replicate 6 "Open_Palm" ++ List.replicate 2 "None")).1
       then (most_common1 (List.replicate 6 "Open_Palm" ++ List.replicate 2 "None")).1
       else "None") :=
  ⟨by decide,
   (C1_stable_vote_threshold.1
      (List.replicate 6 "Open_Palm" ++ List.replicate 2 "None") (by decide)).2⟩

/-- C2: on a full window, a stable value that is a recognized category and
differs from `active_state` updates the state and emits exactly one event for
it (this covers a direct category-A-to-category-B transition); a stable value
equal to `active_state` emits nothing and leaves the state unchanged. -/
theorem C2_transition_event (s : AppState) (raw_res : String)
    (hfull : (pushWindow s.window raw_res).length = WINDOW_SIZE) :
    (inGestureMap (stable_now_of (pushWindow s.window raw_res)) = true →
      stable_now_of (pushWindow s.window raw_res) ≠ s.active_state →
      debounceStep s raw_res =
        ({ active_state := stable_now_of (pushWindow s.window raw_res),
           window := pushWindow s.window raw_res },
         some { category := stable_now_of (pushWindow s.window raw_res),
                label := gestureLabel (stable_now_of (pushWindow s.window raw_res)) })) ∧
    (stable_now_of (pushWindow s.window raw_res) = s.active_state →
      (debounceStep s raw_res).1.active_state = s.active_state ∧
      (debounceStep s raw_res).2 = none) :=
  ⟨fun hmap hne => debounceStep_full_emit s raw_res hfull hmap hne,
   fun heq => debounceStep_full_same s raw_res hfull heq⟩

/-- C2 witness: from `active_state = "None"` with seven `"Open_Palm"` entries
queued, one more `"Open_Palm"` emits the single `"Open_Palm"` event. -/
theorem C2_transition_event_witness :
    (pushWindow (List.replicate 7 "Open_Palm") "Open_Palm").length = WINDOW_SIZE ∧
    debounceStep { active_state := "None", window := List.replicate 7 "Open_Palm" }
        "Open_Palm" =
      ({ active_state := "Open_Palm", window := List.replicate 8 "Open_Palm" },
       some { category := "Open_Palm", label := "👀Awake" }) := by
  refine ⟨by decide, ?_⟩
  have h := (C2_transition_event
      { active_state := "None", window := List.replicate 7 "Open_Palm" }
      "Open_Palm" (by decide)).1
    (by rw [stable_now_of_eq]; decide) (by rw [stable_now_of_eq]; decide)
  rw [h]
  simp only [stable_now_of_eq]
  decide

/-- C3 counterexample: at the very first cycle, an erroring classifier call
makes the cycle error out instead of appending `"None"` (which would have
produced the `ok` state on the right-hand side). -/
theorem C3_classifier_error_not_caught_cex :
    inferStep initState (Except.error ()) = Except.error () ∧
    inferStep initState (Except.error ()) ≠
      Except.ok ({ active_state := "None", window := ["None"] }, none) :=
  ⟨rfl, fun h => Except.noConfusion h⟩

/-- C3 amended: only the frame-queue `get` is guarded by the worker's
`try`/`except`; an error raised by the classifier invocation propagates out
of the cycle — the worker loop terminates and the stability window does not
advance — while a successful invocation feeds the raw label to the debounce
step. -/
theorem C3_classifier_error_propagates (s : AppState) (e : Unit) :
    inferStep s (Except.error e) = Except.error e ∧
    ∀ result : RecognizerResult,
      inferStep s (Except.ok result) = Except.ok (debounceStep s (raw_res_of result)) :=
  ⟨rfl, fun _ => rfl⟩

/-- A recognizer result whose landmark bounding box has area exactly
`AREA_THRESHOLD`: width `1/2`, height `3/10`, `1/2 · 3/10 = 15/100`. -/
def boundary_result : RecognizerResult :=
  { gestures := [[{ category_name := "Open_Palm" }]],
    hand_landmarks := [[{ x := 0, y := 0 }, { x := 1 / 2, y := 3 / 10 }]] }

theorem boundary_result_area :
    detectionArea (boundary_result.hand_landmarks.headD []) = AREA_THRESHOLD := by
  show detectionArea [⟨0, 0⟩, ⟨1 / 2, 3 / 10⟩] = AREA_THRESHOLD
  simp [detectionArea, listMax, listMin, AREA_THRESHOLD]
  norm_num [max_def, min_def]

/-- C4 counterexample: a detection whose area equals the threshold exactly.
Gestures and landmarks are present and the area is not below the threshold,
so the claim predicts the reported category `"Open_Palm"` — but the code's
strict comparison `area > AREA_THRESHOLD` yields `"None"`. -/
theorem C4_area_boundary_cex :
    raw_res_of boundary_result = "None" ∧
    boundary_result.gestures ≠ [] ∧
    boundary_result.hand_landmarks ≠ [] ∧
    ¬ detectionArea (boundary_result.hand_landmarks.headD []) < AREA_THRESHOLD ∧
    topCategory boundary_result = "Open_Palm" := by
  refine ⟨?_, by decide, by decide, ?_, rfl⟩
  · simp only [raw_res_of]
    rw [if_pos ⟨by decide, by decide⟩]
    rw [if_neg]
    rw [boundary_result_area]
    exact lt_irrefl _
  · rw [boundary_result_area]
    exact lt_irrefl _

/-- C4 amended: the cycle's raw label is `"None"` exactly when the
classifier reports no gestures or no landmarks, or the detection area does
not **exceed** the threshold (the comparison is strict, so an area equal to
`0.15` is also rejected); otherwise it is the reported top category. -/
theorem C4_raw_label_rule (result : RecognizerResult) :
    raw_res_of result =
      if result.gestures = [] ∨ result.hand_landmarks = [] ∨
          detectionArea (result.hand_landmarks.headD []) ≤ AREA_THRESHOLD
      then "None" else topCategory result := by
  simp only [raw_res_of]
  by_cases h1 : result.gestures = []
  · simp [h1]
  · by_cases h2 : result.hand_landmarks = []
    · simp [h1, h2]
    · by_cases h3 : detectionArea (result.hand_landmarks.headD []) ≤ AREA_THRESHOLD
      · rw [if_pos ⟨h1, h2⟩, if_neg (not_lt.mpr h3), if_pos (Or.inr (Or.inr h3))]
      · rw [if_pos ⟨h1, h2⟩, if_pos (not_le.mp h3), if_neg ?_]
        push_neg
        exact ⟨h1, h2, not_le.mp h3⟩

/-- C5: a full-window stable value of `"None"` resets `active_state` to
`"None"` and emits no event; consequently the category-A, none, category-A
run (eight `"Closed_Fist"`, eight `"None"`, eight `"Closed_Fist"` raw
samples) emits exactly the two `"Closed_Fist"` entry events. -/
theorem C5_stable_none_resets (s : AppState) (raw_res : String)
    (hfull : (pushWindow s.window raw_res).length = WINDOW_SIZE)
    (hnone : stable_now_of (pushWindow s.window raw_res) = "None") :
    debounceStep s raw_res =
      ({ active_state := "None", window := pushWindow s.window raw_res }, none) ∧
    (runRaw initState
        (List.replicate 8 "Closed_Fist" ++ List.replicate 8 "None" ++
          List.replicate 8 "Closed_Fist")).2 =
      [{ category := "Closed_Fist", label := "😴Sleeping" },
       { category := "Closed_Fist", label := "😴Sleeping" }] := by
  refine ⟨debounceStep_full_none s raw_res hfull hnone, ?_⟩
  rw [runRaw_eq]
  decide

/-- C5 witness: with `active_state = "Closed_Fist"` and seven `"None"`
entries queued, one more `"None"` resets the state silently. -/
theorem C5_stable_none_resets_witness :
    (pushWindow (List.replicate 7 "None") "None").length = WINDOW_SIZE ∧
    stable_now_of (pushWindow (List.replicate 7 "None") "None") = "None" ∧
    debounceStep { active_state := "Closed_Fist", window := List.replicate 7 "None" }
        "None" =
      ({ active_state := "None", window := pushWindow (List.replicate 7 "None") "None" },
       none) :=
  ⟨by decide, by rw [stable_now_of_eq]; decide,
   (C5_stable_none_resets
      { active_state := "Closed_Fist", window := List.replicate 7 "None" } "None"
      (by decide) (by rw [stable_now_of_eq]; decide)).1⟩

/-- C6 counterexample: the audio file is missing and the capture device is
unavailable, yet construction completes (with only a warning) instead of
aborting — the claim's "missing audio file or unavailable device is fatal"
fails. -/
theorem C6_missing_audio_not_fatal_cex :
    initBabyMonitorApp
        { audio_file_exists := false, model_file_exists := true, camera_opened := false } =
      StartupResult.started true := rfl

/-- C6 amended: at construction time, only a missing gesture model file is
fatal (`sys.exit(1)` after a critical log); a missing audio file merely logs
a warning and startup continues, and capture-device availability is not
checked at all. -/
theorem C6_only_missing_model_fatal (env : StartupEnv) :
    (initBabyMonitorApp env = StartupResult.exited 1 ↔ env.model_file_exists = false) ∧
    (env.model_file_exists = true →
      initBabyMonitorApp env = StartupResult.started (!env.audio_file_exists)) := by
  obtain ⟨a, m, c⟩ := env
  cases m <;> simp [initBabyMonitorApp]

/-- C6 witness: with every asset present the app starts without a warning. -/
theorem C6_only_missing_model_fatal_witness :
    ({ audio_file_exists := true, model_file_exists := true, camera_opened := true } :
        StartupEnv).model_file_exists = true ∧
    initBabyMonitorApp
        { audio_file_exists := true, model_file_exists := true, camera_opened := true } =
      StartupResult.started
        (!({ audio_file_exists := true, model_file_exists := true,
             camera_opened := true } : StartupEnv).audio_file_exists) :=
  ⟨rfl,
   (C6_only_missing_model_fatal
      { audio_file_exists := true, model_file_exists := true, camera_opened := true }).2 rfl⟩

/-- C7: the producer-side put always succeeds (never blocks) and leaves
exactly the new frame in the slot, so two puts with no intervening take keep
only the second frame; a take on a waiting frame returns it and a take on an
empty channel reports the no-frame signal. -/
theorem C7_frame_channel_latest_wins {α : Type} (slot : Option α) (f1 f2 : α) :
    camera_put slot f1 = Except.ok (some f1) ∧
    (camera_put slot f1).bind (fun s1 => camera_put s1 f2) = Except.ok (some f2) ∧
    queue_get (some f2) = Except.ok (f2, none) ∧
    queue_get (none : Option α) = Except.error () := by
  refine ⟨?_, ?_, rfl, rfl⟩
  · cases slot <;> rfl
  · cases slot <;> rfl

/-- C8: the dispatcher makes exactly one attempt per configured recipient
key, in order, whatever the per-recipient responses are (it never raises —
it is a total function into the outcome log); concretely, with three
recipients and the second raising a transport error, the first and third are
still attempted and succeed. -/
theorem C8_push_one_attempt_each (keys : List String)
    (response : String → Except Unit Nat) :
    (push_to_bark keys response).map Prod.fst = keys ∧
    push_to_bark ["k1", "k2", "k3"]
        (fun k => if k = "k2" then Except.error () else Except.ok 200) =
      [("k1", PushOutcome.sent), ("k2", PushOutcome.transport_error),
       ("k3", PushOutcome.sent)] := by
  constructor
  · simp only [push_to_bark, List.map_map]
    exact List.map_id keys
  · rfl

/-- C9: `active_state` is `"None"` at startup; after any run of inference
cycles it is `"None"` or a key of `GESTURE_MAP`; and a cycle whose appended
window is not yet full leaves it untouched, so it is mutated only by a
full-window stable decision. -/
theorem C9_active_state_invariant :
    initState.active_state = "None" ∧
    (∀ raws : List String,
      recognized_states.contains (runRaw initState raws).1.active_state = true) ∧
    (∀ (s : AppState) (raw_res : String),
      (pushWindow s.window raw_res).length ≠ WINDOW_SIZE →
      (debounceStep s raw_res).1.active_state = s.active_state) :=
  ⟨rfl,
   fun raws => runRaw_active_mem raws initState (by decide),
   fun s raw_res h => by rw [debounceStep_not_full s raw_res h]⟩

/-- C9 witness: the very first cycle (window not yet full) leaves
`active_state` at `"None"`. -/
theorem C9_active_state_invariant_witness :
    (pushWindow initState.window "Open_Palm").length ≠ WINDOW_SIZE ∧
    (debounceStep initState "Open_Palm").1.active_state = initState.active_state :=
  ⟨by decide, C9_active_state_invariant.2.2 initState "Open_Palm" (by decide)⟩

/-- C10: a full-window stable value that is neither `"None"` nor a key of
`GESTURE_MAP` (for example `"Thumb_Down"`) leaves `active_state` unchanged
and emits no event, even though it differs from the current state. -/
theorem C10_unrecognized_stable_ignored (s : AppState) (raw_res : String)
    (hfull : (pushWindow s.window raw_res).length = WINDOW_SIZE)
    (hmap : inGestureMap (stable_now_of (pushWindow s.window raw_res)) = false)
    (hnone : stable_now_of (pushWindow s.window raw_res) ≠ "None") :
    debounceStep s raw_res = ({ s with window := pushWindow s.window raw_res }, none) :=
  debounceStep_full_other s raw_res hfull hmap hnone

/-- C10 witness: a window of eight `"Thumb_Down"` samples has stable value
`"Thumb_Down"`, which differs from `active_state = "None"` and is not in
`GESTURE_MAP`; the state survives unchanged and nothing is emitted. -/
theorem C10_unrecognized_stable_ignored_witness :
    (pushWindow (List.replicate 7 "Thumb_Down") "Thumb_Down").length = WINDOW_SIZE ∧
    inGestureMap
        (stable_now_of (pushWindow (List.replicate 7 "Thumb_Down") "Thumb_Down")) =
      false ∧
    stable_now_of (pushWindow (List.replicate 7 "Thumb_Down") "Thumb_Down") ≠ "None" ∧
    debounceStep { active_state := "None", window := List.replicate 7 "Thumb_Down" }
        "Thumb_Down" =
      ({ active_state := "None",
         window := pushWindow (List.replicate 7 "Thumb_Down") "Thumb_Down" }, none) :=
  ⟨by decide, by rw [stable_now_of_eq]; decide, by rw [stable_now_of_eq]; decide,
   C10_unrecognized_stable_ignored
     { active_state := "None", window := List.replicate 7 "Thumb_Down" } "Thumb_Down"
     (by decide) (by rw [stable_now_of_eq]; decide) (by rw [stable_now_of_eq]; decide)⟩

end BabyMonitor
